import Mathlib

/-!
Verification of the ShellArt rendering pipeline.

The Rust source is shallowly embedded: `f32` arithmetic is modelled over `ℚ`
(every intermediate value in the claims stays well inside the exactly
representable range), machine-integer casts are modelled explicitly
(`as u8` / `as u32` / `as usize` saturate, `wrapping_add` wraps), and the
capture device plus the interactive terminal loop are modelled as explicit
state transitions.  Randomness consumed by Glitch mode is passed in as
explicit parameters, mirroring the draws the code takes from its RNG.
-/

/-- Truncation toward zero, the rounding used by Rust `as` casts from floats
and by `%` on floats. -/
def rtrunc (q : ℚ) : ℤ := if 0 ≤ q then ⌊q⌋ else -⌊-q⌋

/-- Rust `f32::round`: round half away from zero. -/
def rust_round (q : ℚ) : ℤ := if 0 ≤ q then ⌊q + 1/2⌋ else -⌊-q + 1/2⌋

/-- Rust `%` on floats: `a - b * trunc(a / b)`. -/
def rust_fmod (a b : ℚ) : ℚ := a - b * (rtrunc (a / b) : ℚ)

/-- Rust `as u8` cast from a float: saturating, truncating toward zero. -/
def f32_as_u8 (q : ℚ) : ℕ := (min 255 (max 0 (rtrunc q))).toNat

/-- Rust `as usize` cast from a float: saturating, truncating toward zero. -/
def f32_as_usize (q : ℚ) : ℕ := (min (2 ^ 64 - 1) (max 0 (rtrunc q))).toNat

/-- Rust `.round() as u32` applied to a float. -/
def round_as_u32 (q : ℚ) : ℕ := (min (2 ^ 32 - 1) (max 0 (rust_round q))).toNat

/-- Rust `u8::wrapping_add` on byte values. -/
def wrapping_add8 (a b : ℕ) : ℕ := (a + b) % 256

/-- The character-set variants of `main.rs` (`enum CharSet`, 11 variants). -/
inductive CharSet where
  | Retro
  | Default
  | Light
  | Detailed
  | Blocks
  | Binary
  | Minimalist
  | Modern
  | Slashed
  | Testing
  | Testing2
deriving DecidableEq, Fintype

/-- Translation of `CharSet::next`, `main.rs` lines 33-47: a hand-written chain of
matches wrapping `Testing2` back to `Retro`. -/
def CharSet.next : CharSet → CharSet
  | .Retro => .Default
  | .Default => .Light
  | .Light => .Detailed
  | .Detailed => .Blocks
  | .Blocks => .Binary
  | .Binary => .Minimalist
  | .Minimalist => .Modern
  | .Modern => .Slashed
  | .Slashed => .Testing
  | .Testing => .Testing2
  | .Testing2 => .Retro

/-- The color-transform modes of `main.rs` (`enum ArtMode`). -/
inductive ArtMode where
  | Standard
  | Grayscale
  | Matrix
  | Thermal
  | Amber
  | Neon
  | Rainbow
  | Cga
  | Glitch
deriving DecidableEq, Fintype

/-- Translation of `ArtMode::next`, `main.rs` lines 82-94. -/
def ArtMode.next : ArtMode → ArtMode
  | .Standard => .Grayscale
  | .Grayscale => .Matrix
  | .Matrix => .Thermal
  | .Thermal => .Amber
  | .Amber => .Neon
  | .Neon => .Rainbow
  | .Rainbow => .Cga
  | .Cga => .Glitch
  | .Glitch => .Standard

/-- One block's averaged sample (`struct BlockSample` in `main.rs`):
luminance plus mean color channels.  Channels are byte values, modelled as
naturals. -/
structure BlockSample where
  lum : ℚ
  r : ℕ
  g : ℕ
  b : ℕ
deriving DecidableEq

/-- The BT.601 luminance weights (`pub const WEIGHTS: [f32; 3]`). -/
def WEIGHTS : ℚ × ℚ × ℚ := (299/1000, 587/1000, 114/1000)

/-- Translation of `hsv_to_rgb`, `main.rs` lines 226-250 (hue 0-360, sat 0-1, val 0-1),
with `f32` arithmetic modelled over `ℚ`. -/
def hsv_to_rgb (h s v : ℚ) : ℕ × ℕ × ℕ :=
  let c := v * s
  let x := c * (1 - |rust_fmod (h / 60) 2 - 1|)
  let m := v - c
  let rgb : ℚ × ℚ × ℚ :=
    if h < 60 then (c, x, 0)
    else if h < 120 then (x, c, 0)
    else if h < 180 then (0, c, x)
    else if h < 240 then (0, x, c)
    else if h < 300 then (x, 0, c)
    else (c, 0, x)
  (f32_as_u8 ((rgb.1 + m) * 255),
   f32_as_u8 ((rgb.2.1 + m) * 255),
   f32_as_u8 ((rgb.2.2 + m) * 255))

/-- The Rainbow hue of `main.rs` line 293:
`(x as f32 * 2.0 + y as f32 * 4.0 + frame_count as f32 * 5.0) % 360.0`. -/
def rainbow_hue (x y frame_count : ℕ) : ℚ :=
  rust_fmod ((x : ℚ) * 2 + (y : ℚ) * 4 + (frame_count : ℚ) * 5) 360

/-- Translation of `get_color`, `main.rs` lines 252-319.  The two draws Glitch mode takes
from the ambient RNG are passed explicitly: `glitch_roll` is the result of
`rng.gen_bool(0.05)` and `glitch_rgb` the random triple emitted when it
fires. -/
def get_color (sample : BlockSample) (mode : ArtMode) (x y frame_count : ℕ)
    (glitch_roll : Bool) (glitch_rgb : ℕ × ℕ × ℕ) : ℕ × ℕ × ℕ :=
  match mode with
  | .Standard => (sample.r, sample.g, sample.b)
  | .Grayscale =>
      let l := f32_as_u8 sample.lum
      (l, l, l)
  | .Matrix => (0, f32_as_u8 sample.lum, 0)
  | .Amber =>
      let l := sample.lum / 255
      (f32_as_u8 (l * 255), f32_as_u8 (l * 176), 0)
  | .Thermal =>
      let l := sample.lum
      if l < 64 then (0, f32_as_u8 (l * 4), 255)
      else if l < 128 then (0, 255, f32_as_u8 (255 - (l - 64) * 4))
      else if l < 192 then (f32_as_u8 ((l - 128) * 4), 255, 0)
      else (255, f32_as_u8 (255 - (l - 192) * 4), 0)
  | .Neon =>
      let l := sample.lum
      if l < 85 then
        let factor := l / 85
        (f32_as_u8 (20 * factor), 0, f32_as_u8 (40 + 215 * factor))
      else if l < 170 then
        let factor := (l - 85) / 85
        (255, 0, f32_as_u8 (255 - 127 * factor))
      else
        let factor := (l - 170) / 85
        (f32_as_u8 (255 * (1 - factor)), f32_as_u8 (255 * factor), 255)
  | .Rainbow => hsv_to_rgb (rainbow_hue x y frame_count) 1 1
  | .Cga =>
      let l := sample.lum
      if l < 50 then (0, 0, 0)
      else if l < 120 then (255, 85, 255)
      else if l < 190 then (85, 255, 255)
      else (255, 255, 255)
  | .Glitch =>
      if glitch_roll then glitch_rgb
      else (wrapping_add8 sample.r 10, sample.g, wrapping_add8 sample.b 10)

/-- A pixel buffer (OpenCV `Mat`): dimensions plus a channel triple per
`(row, column)` position, the triple listing the channels in the index order
`pixel[0], pixel[1], pixel[2]` the code reads them. -/
structure Mat where
  width : ℕ
  height : ℕ
  pix : ℕ → ℕ → ℕ × ℕ × ℕ

/-- Model of `Mat::empty()`: true for a zero-sized buffer. -/
def Mat.empty (m : Mat) : Bool := m.width == 0 || m.height == 0

/-- Model of `Mat::default()`: the empty 0×0 buffer. -/
def Mat.mdefault : Mat := ⟨0, 0, fun _ _ => (0, 0, 0)⟩

/-- Model of `core::flip(_, _, 1)`: horizontal mirror. -/
def Mat.flipH (m : Mat) : Mat :=
  ⟨m.width, m.height, fun y x => m.pix y (m.width - 1 - x)⟩

/-- Errors an OpenCV-backed routine can hit: an out-of-bounds `at_2d` read
(returned as an `Err`), or the panic from an integer division by zero. -/
inductive RunErr where
  | oob
  | divByZero
deriving DecidableEq

/-- Rust `(0..n).step_by(step)`: `0, step, 2·step, …` below `n`. -/
def stepIndices (n step : ℕ) : List ℕ :=
  (List.range ((n + step - 1) / step)).map (· * step)

/-- The clipped index range `a, a+1, …, min (a+len) bound - 1` used by
`block_color` for its loop bounds. -/
def clipRange (a len bound : ℕ) : List ℕ :=
  (List.range (min (a + len) bound - a)).map (a + ·)

/-- The glyph-index computation inlined in `assign_chars`, `main.rs`
lines 213-214:
`((lum / 256.0) * char_count as f32) as usize`, then `.min(char_count - 1)`. -/
def assign_chars_index (lum : ℚ) (char_count : ℕ) : ℕ :=
  min (f32_as_usize (lum / 256 * (char_count : ℚ))) (char_count - 1)

/-- Translation of `calculate_block_size`, `main.rs` lines 164-169. -/
def calculate_block_size (img_width width : ℤ) : ℕ × ℕ :=
  let block_w : ℚ := max ((img_width : ℚ) / ((max width 1 : ℤ) : ℚ)) 1
  let block_h : ℚ := max (block_w / (1/2)) 1
  (round_as_u32 block_w, round_as_u32 block_h)

namespace utils

/-- Translation of `calculate_block_size`, `utils.rs` lines 74-82 (clamping happens
after the raw quotients are formed). -/
def calculate_block_size (img_width width : ℤ) : ℕ × ℕ :=
  let block_w : ℚ := (img_width : ℚ) / (width : ℚ)
  let block_h : ℚ := block_w / (1/2)
  (round_as_u32 (max block_w 1), round_as_u32 (max block_h 1))

/-- The glyph-index computation of `assign_chars`, `utils.rs` line 175:
`((lum / 255.0) * ((char_set.len() - 1) as f32)) as usize`. -/
def assign_chars_index (lum : ℚ) (len : ℕ) : ℕ :=
  f32_as_usize (lum / 255 * ((len - 1 : ℕ) : ℚ))

/-- Translation of `block_color`, `utils.rs` lines 84-126, kept faithful to the source,
including its two slips: `img_h` is assigned `size()?.width` (line 93), and
the output blue channel is assigned the red mean `r` (line 123).  Reads are
`at_2d` (error when out of the buffer), and the `u32` mean division panics
when the clipped rectangle is empty (`count == 0`). -/
def block_color (frame : Mat) (x0 y0 w h : ℕ) : Except RunErr BlockSample :=
  let img_w := frame.width
  let img_h := frame.width
  let ys := clipRange y0 h img_h
  let xs := clipRange x0 w img_w
  let pts := ys.flatMap fun y => xs.map fun x => (y, x)
  if pts.all fun p => p.1 < frame.height && p.2 < frame.width then
    if pts.length = 0 then Except.error RunErr.divByZero
    else
      let r_sum := (pts.map fun p => (frame.pix p.1 p.2).1).sum
      let g_sum := (pts.map fun p => (frame.pix p.1 p.2).2.1).sum
      let b_sum := (pts.map fun p => (frame.pix p.1 p.2).2.2).sum
      let count := pts.length
      let r := (r_sum / count) % 256
      let g := (g_sum / count) % 256
      let b := (b_sum / count) % 256
      let brightness :=
        WEIGHTS.1 * (r : ℚ) + WEIGHTS.2.1 * (g : ℚ) + WEIGHTS.2.2 * (b : ℚ)
      Except.ok ⟨brightness, r, g, r⟩
  else Except.error RunErr.oob

/-- Translation of `get_blocks_data`, `utils.rs` lines 128-157: one `block_color` sample
per block-size step over the frame. -/
def get_blocks_data (frame : Mat) (block_w block_h : ℕ) :
    Except RunErr (List (List BlockSample)) :=
  (stepIndices frame.height block_h).mapM fun y0 =>
    (stepIndices frame.width block_w).mapM fun x0 =>
      block_color frame x0 y0 block_w block_h

end utils

/-- A 1×1 frame whose single pixel is the uniform color `(100, 150, 200)`. -/
def uniformFrame : Mat := ⟨1, 1, fun _ _ => (100, 150, 200)⟩

/-- A portrait frame, 1 pixel wide and 3 tall, uniformly black. -/
def portraitFrame : Mat := ⟨1, 3, fun _ _ => (0, 0, 0)⟩

/-- The capture device, modelled as an oracle: `reads` is the prescribed
sequence of frames the device will hand to successive `read` calls (an empty
`Mat` models an end-of-stream / no-data response, and an exhausted list keeps
answering empty), and `seeks` counts `set(CAP_PROP_POS_FRAMES, 0)` calls. -/
structure CamState where
  reads : List Mat
  seeks : ℕ

/-- Model of `VideoCapture::read`: pop the next prescribed response. -/
def cam_read : CamState → Mat × CamState
  | ⟨[], s⟩ => (Mat.mdefault, ⟨[], s⟩)
  | ⟨f :: rest, s⟩ => (f, ⟨rest, s⟩)

/-- Model of `cam.set(CAP_PROP_POS_FRAMES, 0.0)`: the seek back to the first frame. -/
def cam_seek_start (c : CamState) : CamState := ⟨c.reads, c.seeks + 1⟩

/-- Translation of `get_frame_data`, `main.rs` lines 138-162: read; on an empty result
seek to the start and read once more; if still empty leave `frame` untouched
and return `Ok`; otherwise store the (optionally flipped) capture. -/
def get_frame_data (cam : CamState) (frame : Mat) (flipped : Bool) :
    CamState × Mat :=
  let rd := cam_read cam
  if rd.1.empty then
    let cam2 := cam_seek_start rd.2
    let rd2 := cam_read cam2
    if rd2.1.empty then (rd2.2, frame)
    else (rd2.2, if flipped then rd2.1.flipH else rd2.1)
  else (rd.2, if flipped then rd.1.flipH else rd.1)

/-- The decoded key events `run_terminal_mode` reacts to (`main.rs`
lines 358-365); `q` also stands for `Esc`, `widen` for `+`/`=`, `narrow` for
`-`/`_`. -/
inductive Key where
  | q
  | m
  | c
  | widen
  | narrow
  | h
  | other
deriving DecidableEq

/-- The mutable state of one terminal session (`run_terminal_mode` locals
plus the key-mutated fields of `args`). -/
structure Sess where
  mode : ArtMode
  charset : CharSet
  width : ℤ
  show_ui : Bool
  flip : Bool
  frame : Mat
  frame_count : ℕ
  quit : Bool

/-- The key handling of `run_terminal_mode` lines 356-368: at most one event
per iteration, applied before the frame is captured. -/
def apply_key (k : Option Key) (s : Sess) : Sess :=
  match k with
  | none => s
  | some .q => { s with quit := true }
  | some .m => { s with mode := s.mode.next }
  | some .c => { s with charset := s.charset.next }
  | some .widen => { s with width := min (s.width + 2) 500 }
  | some .narrow => { s with width := max (s.width - 2) 10 }
  | some .h => { s with show_ui := !s.show_ui }
  | some .other => s

/-- One iteration of the `run_terminal_mode` loop (`main.rs` lines 355-426):
handle at most one key event, capture a frame, and either skip (`continue`)
when the persistent frame buffer is empty, or render and bump the wrapping
frame counter.  The returned `Bool` records whether the iteration rendered
and flushed output to the display. -/
def terminal_tick (k : Option Key) (cam : CamState) (s0 : Sess) :
    CamState × Sess × Bool :=
  let s := apply_key k s0
  if s.quit then (cam, s, false)
  else
    let r := get_frame_data cam s.frame s.flip
    if r.2.empty then (r.1, { s with frame := r.2 }, false)
    else (r.1, { s with frame := r.2,
                        frame_count := (s.frame_count + 1) % 2 ^ 64 }, true)

/-- A freshly started session: default frame buffer (empty), counter 0. -/
def sessC4 : Sess :=
  ⟨ArtMode.Standard, CharSet.Default, 150, true, false, Mat.mdefault, 0, false⟩

/-- A non-empty 1×1 frame used as a captured frame. -/
def matC4 : Mat := ⟨1, 1, fun _ _ => (5, 5, 5)⟩

/-- A device that delivers one good frame and then only end-of-stream
responses, even after the seek back to the start. -/
def camC4 : CamState := ⟨[matC4, Mat.mdefault, Mat.mdefault], 0⟩

/-- A freshly started session used for the session-state claims. -/
def sessC10 : Sess :=
  ⟨ArtMode.Standard, CharSet.Default, 150, true, false, Mat.mdefault, 0, false⟩

/-- Claim C8: `CharSet::next` implements a single cycle over all 11 charset
variants: from any variant, 11 successive applications return to the start,
the 11 iterates are pairwise distinct, and every variant is visited. -/
theorem charset_next_single_cycle :
    ∀ c : CharSet,
      CharSet.next^[11] c = c ∧
      (∀ i j : Fin 11, CharSet.next^[(i : ℕ)] c = CharSet.next^[(j : ℕ)] c → i = j) ∧
      (∀ v : CharSet, ∃ i : Fin 11, CharSet.next^[(i : ℕ)] c = v) := by
  decide

/-- Witness for C8 at the concrete variant `Retro`. -/
theorem charset_next_single_cycle_witness :
    CharSet.next^[11] CharSet.Retro = CharSet.Retro :=
  (charset_next_single_cycle CharSet.Retro).1

/-- Truncation toward zero agrees with the floor on nonnegative inputs. -/
theorem rtrunc_of_nonneg {q : ℚ} (h : 0 ≤ q) : rtrunc q = ⌊q⌋ := if_pos h

/-- The saturating `as usize` cast is monotone on nonnegative inputs. -/
theorem f32_as_usize_mono {a b : ℚ} (ha : 0 ≤ a) (hab : a ≤ b) :
    f32_as_usize a ≤ f32_as_usize b := by
  unfold f32_as_usize
  refine Int.toNat_le_toNat (min_le_min le_rfl (max_le_max le_rfl ?_))
  rw [rtrunc_of_nonneg ha, rtrunc_of_nonneg (ha.trans hab)]
  exact Int.floor_le_floor hab

/-- The saturating `as usize` cast respects a natural upper bound. -/
theorem f32_as_usize_le {q : ℚ} {m : ℕ} (h0 : 0 ≤ q) (h : q ≤ (m : ℚ)) :
    f32_as_usize q ≤ m := by
  unfold f32_as_usize
  rw [rtrunc_of_nonneg h0, Int.toNat_le]
  have hf : ⌊q⌋ ≤ (m : ℤ) := by
    have := Int.floor_le_floor h
    simpa using this
  have h0f : (0 : ℤ) ≤ ⌊q⌋ := Int.floor_nonneg.2 h0
  omega

/-- Claim C1: for every luminance `l` in `[0, 255]` and charset length
`n ≥ 1`, both glyph-index computations reachable from `assign_chars` (the
`main.rs` one, `(lum/256·n)` floored then clamped, and the `utils.rs` one,
`(lum/255·(n-1))` floored) return an index in `[0, n-1]`, and both are
monotonically non-decreasing in the luminance. -/
theorem glyph_index_range_and_monotone (n : ℕ) (l l' : ℚ) (hn : 1 ≤ n)
    (h0 : 0 ≤ l) (hll : l ≤ l') (h255 : l' ≤ 255) :
    assign_chars_index l n ≤ n - 1 ∧ utils.assign_chars_index l n ≤ n - 1 ∧
    assign_chars_index l n ≤ assign_chars_index l' n ∧
    utils.assign_chars_index l n ≤ utils.assign_chars_index l' n := by
  have h0' : 0 ≤ l' := h0.trans hll
  have hq0 : (0 : ℚ) ≤ l / 256 * (n : ℚ) := by positivity
  have hq0' : (0 : ℚ) ≤ l / 255 * ((n - 1 : ℕ) : ℚ) := by positivity
  refine ⟨min_le_right _ _, ?_, ?_, ?_⟩
  · unfold utils.assign_chars_index
    refine f32_as_usize_le hq0' ?_
    have hdiv : l / 255 ≤ 1 := by
      rw [div_le_one (by norm_num)]
      exact hll.trans h255
    exact mul_le_of_le_one_left (by positivity) hdiv
  · unfold assign_chars_index
    refine min_le_min (f32_as_usize_mono hq0 ?_) le_rfl
    gcongr
  · unfold utils.assign_chars_index
    refine f32_as_usize_mono hq0' ?_
    gcongr

/-- Witness for C1 at `n = 9`, `l = 100`, `l' = 200`. -/
theorem glyph_index_range_and_monotone_witness :
    assign_chars_index 100 9 ≤ 8 ∧ utils.assign_chars_index 100 9 ≤ 8 ∧
    assign_chars_index 100 9 ≤ assign_chars_index 200 9 ∧
    utils.assign_chars_index 100 9 ≤ utils.assign_chars_index 200 9 :=
  glyph_index_range_and_monotone 9 100 200 (by norm_num) (by norm_num)
    (by norm_num) (by norm_num)

/-- Applying `round() as u32` to a float that is at least 1 is at least 1. -/
theorem round_as_u32_pos {q : ℚ} (h : 1 ≤ q) : 1 ≤ round_as_u32 q := by
  unfold round_as_u32 rust_round
  rw [if_pos (zero_le_one.trans h)]
  have h1 : (1 : ℤ) ≤ ⌊q + 1/2⌋ := Int.le_floor.2 (by push_cast; linarith)
  have h2 : (1 : ℤ) ≤ min (2 ^ 32 - 1) (max 0 ⌊q + 1/2⌋) := by omega
  omega

/-- Claim C9: for every source width `w ≥ 1` and target width `t ≥ 1`, both
`calculate_block_size` implementations (`main.rs` and `utils.rs`) return a
block width and a block height that are at least 1. -/
theorem calculate_block_size_ge_one (w t : ℤ) (_hw : 1 ≤ w) (_ht : 1 ≤ t) :
    1 ≤ (calculate_block_size w t).1 ∧ 1 ≤ (calculate_block_size w t).2 ∧
    1 ≤ (utils.calculate_block_size w t).1 ∧
    1 ≤ (utils.calculate_block_size w t).2 :=
  ⟨round_as_u32_pos (le_max_right _ _), round_as_u32_pos (le_max_right _ _),
   round_as_u32_pos (le_max_right _ _), round_as_u32_pos (le_max_right _ _)⟩

/-- Witness for C9 at a 1920-pixel-wide source and target width 150. -/
theorem calculate_block_size_ge_one_witness :
    1 ≤ (calculate_block_size 1920 150).1 ∧
    1 ≤ (calculate_block_size 1920 150).2 ∧
    1 ≤ (utils.calculate_block_size 1920 150).1 ∧
    1 ≤ (utils.calculate_block_size 1920 150).2 :=
  calculate_block_size_ge_one 1920 150 (by norm_num) (by norm_num)

/-- Claim C2 (code bug witness): evaluating `utils.rs::block_color` on a 1×1
block whose only pixel is the uniform color `(100, 150, 200)`.  The mean
channels are `r = 100`, `g = 150`, and the luminance is
`0.299·100 + 0.587·150 + 0.114·200 = 140.75 = 563/4` as the spec demands,
but the returned blue channel is `100` — the red mean — because line 123 of
`utils.rs` assigns `block_sample.b = r`, not the pixel's blue value `200`. -/
theorem block_color_uniform_color_eval :
    utils.block_color uniformFrame 0 0 1 1 = Except.ok ⟨563/4, 100, 150, 100⟩ ∧
    (uniformFrame.pix 0 0).2.2 = 200 := by
  refine ⟨?_, rfl⟩
  norm_num [utils.block_color, clipRange, uniformFrame, WEIGHTS, List.range_succ]

/-- Claim C3 (code bug witness): driving `utils.rs::get_blocks_data` over a
portrait frame (1 pixel wide, 3 tall) with the block size `(1, 2)` that
`utils.rs::calculate_block_size 1 1` itself produces reaches a division by a
zero pixel count: `block_color` clips its row range against the buffer
*width* (`let img_h = frame_data.size()?.width`, line 93), so the block
starting at row 2 clips to an empty rectangle and the `u32` mean division
panics. -/
theorem get_blocks_data_portrait_div_by_zero :
    utils.calculate_block_size 1 1 = (1, 2) ∧
    utils.get_blocks_data portraitFrame 1 2 = Except.error RunErr.divByZero := by
  constructor
  · norm_num [utils.calculate_block_size, round_as_u32, rust_round]
    decide
  · norm_num [utils.get_blocks_data, stepIndices, utils.block_color, clipRange,
      portraitFrame, WEIGHTS, List.range_succ, List.mapM, List.mapM.loop,
      Except.bind, Bind.bind, Except.instMonad, Except.pure]

/-- Claim C5 (counterexample): a sample of luminance `0.897` (e.g. the pure
color `(3,0,0)`) renders in Grayscale as `(0,0,0)`, yet the claimed
`l = round(luminance)` is `1`: the code truncates (`as u8`), it does not
round to nearest. -/
theorem grayscale_truncation_counterexample :
    get_color ⟨897/1000, 3, 0, 0⟩ ArtMode.Grayscale 0 0 0 false (0, 0, 0) =
      (0, 0, 0) ∧
    round ((897 : ℚ) / 1000) = 1 := by
  constructor
  · norm_num [get_color, f32_as_u8, rtrunc]
  · norm_num [round_eq]

/-- Claim C5 (amended): in Grayscale mode `get_color` returns `(l, l, l)`
where `l` is the luminance truncated toward zero (its floor, for the
nonnegative luminances in range), not rounded to nearest. -/
theorem grayscale_is_truncation (sample : BlockSample) (x y t : ℕ) (g : Bool)
    (rc : ℕ × ℕ × ℕ) (h0 : 0 ≤ sample.lum) (h255 : sample.lum ≤ 255) :
    get_color sample ArtMode.Grayscale x y t g rc =
      (⌊sample.lum⌋.toNat, ⌊sample.lum⌋.toNat, ⌊sample.lum⌋.toNat) := by
  have hf0 : (0 : ℤ) ≤ ⌊sample.lum⌋ := Int.floor_nonneg.2 h0
  have hf255 : ⌊sample.lum⌋ ≤ 255 := by
    have := Int.floor_le_floor h255
    simpa using this
  show (f32_as_u8 sample.lum, f32_as_u8 sample.lum, f32_as_u8 sample.lum) = _
  unfold f32_as_u8
  rw [rtrunc_of_nonneg h0]
  have hmm : (min 255 (max 0 ⌊sample.lum⌋)).toNat = ⌊sample.lum⌋.toNat := by
    omega
  rw [hmm]

/-- Witness for the amended C5 at luminance `0.897`. -/
theorem grayscale_is_truncation_witness :
    0 ≤ ((897 : ℚ)/1000) ∧ ((897 : ℚ)/1000) ≤ 255 ∧
    get_color ⟨897/1000, 3, 0, 0⟩ ArtMode.Grayscale 0 0 0 false (0, 0, 0) =
      (⌊(897 : ℚ)/1000⌋.toNat, ⌊(897 : ℚ)/1000⌋.toNat, ⌊(897 : ℚ)/1000⌋.toNat) :=
  ⟨by norm_num, by norm_num,
   grayscale_is_truncation ⟨897/1000, 3, 0, 0⟩ 0 0 0 false (0, 0, 0)
     (by norm_num) (by norm_num)⟩

/-- Rust float `%` agrees with natural remainder on cast naturals
(denominator 360). -/
theorem rust_fmod_natCast (n : ℕ) :
    rust_fmod (n : ℚ) 360 = ((n % 360 : ℕ) : ℚ) := by
  have h1 := Nat.div_add_mod n 360
  have h2 : n % 360 < 360 := Nat.mod_lt _ (by norm_num)
  have hfloor : ⌊(n : ℚ) / 360⌋ = ((n / 360 : ℕ) : ℤ) := by
    rw [Int.floor_eq_iff]
    constructor
    · rw [le_div_iff₀ (by norm_num)]
      exact_mod_cast (by omega : (n / 360) * 360 ≤ n)
    · rw [div_lt_iff₀ (by norm_num)]
      push_cast
      exact_mod_cast (by omega : n < (n / 360 + 1) * 360)
  unfold rust_fmod
  rw [rtrunc_of_nonneg (by positivity), hfloor]
  have hc : (((n / 360 : ℕ) : ℤ) : ℚ) = ((n / 360 : ℕ) : ℚ) := by norm_cast
  rw [hc]
  have hcast : ((360 * (n / 360) + n % 360 : ℕ) : ℚ) = (n : ℚ) := by
    exact_mod_cast h1
  push_cast at hcast
  linarith

/-- Claim C6: Rainbow mode depends only on `(2x + 4y + 5t) mod 360`, hence is
periodic in the frame counter with period 72: the same sample and grid
position render identically at counters `t` and `t + 72`. -/
theorem rainbow_period_72 (sample : BlockSample) (x y t : ℕ) (g : Bool)
    (rc : ℕ × ℕ × ℕ) :
    get_color sample ArtMode.Rainbow x y (t + 72) g rc =
      get_color sample ArtMode.Rainbow x y t g rc ∧
    get_color sample ArtMode.Rainbow x y t g rc =
      hsv_to_rgb (((2 * x + 4 * y + 5 * t) % 360 : ℕ) : ℚ) 1 1 := by
  have key : ∀ u : ℕ,
      rainbow_hue x y u = (((2 * x + 4 * y + 5 * u) % 360 : ℕ) : ℚ) := by
    intro u
    unfold rainbow_hue
    have harg : (x : ℚ) * 2 + (y : ℚ) * 4 + (u : ℚ) * 5 =
        ((2 * x + 4 * y + 5 * u : ℕ) : ℚ) := by
      push_cast
      ring
    rw [harg, rust_fmod_natCast]
  constructor
  · show hsv_to_rgb (rainbow_hue x y (t + 72)) 1 1 =
        hsv_to_rgb (rainbow_hue x y t) 1 1
    rw [key, key]
    have : (2 * x + 4 * y + 5 * (t + 72)) % 360 =
        (2 * x + 4 * y + 5 * t) % 360 := by omega
    rw [this]
  · show hsv_to_rgb (rainbow_hue x y t) 1 1 = _
    rw [key]

/-- Claim C7: the non-glitched branch of Glitch mode is a deterministic
function of the sample, `((r+10) mod 256, g, (b+10) mod 256)`: red and blue
shift with unsigned 8-bit wraparound while green is unchanged; concretely,
`(250, 7, 251)` becomes `(4, 7, 5)` — wrapping, not saturating at 255. -/
theorem glitch_plain_branch_wraps :
    (∀ (sample : BlockSample) (x y t : ℕ) (rc : ℕ × ℕ × ℕ),
      get_color sample ArtMode.Glitch x y t false rc =
        ((sample.r + 10) % 256, sample.g, (sample.b + 10) % 256)) ∧
    get_color ⟨0, 250, 7, 251⟩ ArtMode.Glitch 0 0 0 false (9, 9, 9) =
      (4, 7, 5) :=
  ⟨fun _ _ _ _ _ => rfl, by decide⟩

/-- Key handling never touches the persistent frame buffer. -/
theorem apply_key_frame (k : Option Key) (s : Sess) :
    (apply_key k s).frame = s.frame := by
  cases k with
  | none => rfl
  | some key => cases key <;> rfl

/-- Key handling never touches the flip flag. -/
theorem apply_key_flip (k : Option Key) (s : Sess) :
    (apply_key k s).flip = s.flip := by
  cases k with
  | none => rfl
  | some key => cases key <;> rfl

/-- Key handling never touches the frame counter. -/
theorem apply_key_frame_count (k : Option Key) (s : Sess) :
    (apply_key k s).frame_count = s.frame_count := by
  cases k with
  | none => rfl
  | some key => cases key <;> rfl

/-- Flipping preserves emptiness. -/
theorem Mat.empty_flipH (m : Mat) : m.flipH.empty = m.empty := rfl

/-- The default buffer is empty. -/
theorem Mat.empty_mdefault : Mat.mdefault.empty = true := rfl

/-- If `get_frame_data` hands back an empty frame, it is the caller's old
frame, untouched (both reads were empty). -/
theorem get_frame_data_empty_frame (cam : CamState) (fr : Mat) (fl : Bool)
    (he : ((get_frame_data cam fr fl).2).empty = true) :
    (get_frame_data cam fr fl).2 = fr := by
  unfold get_frame_data at he ⊢
  rcases cam with ⟨reads, sk⟩
  cases reads with
  | nil =>
    simp [cam_read, cam_seek_start, Mat.empty_mdefault] at he ⊢
  | cons f rest =>
    cases hfe : f.empty with
    | false =>
      simp only [cam_read, hfe, Bool.false_eq_true, if_false] at he ⊢
      cases fl <;> simp [Mat.empty_flipH, hfe] at he
    | true =>
      cases rest with
      | nil =>
        simp [cam_read, cam_seek_start, hfe, Mat.empty_mdefault] at he ⊢
      | cons f2 rest2 =>
        cases hfe2 : f2.empty with
        | false =>
          simp only [cam_read, cam_seek_start, hfe, hfe2, if_true, if_false,
            Bool.false_eq_true] at he ⊢
          cases fl <;> simp [Mat.empty_flipH, hfe2] at he
        | true =>
          simp [cam_read, cam_seek_start, hfe, hfe2] at he ⊢

/-- Claim C4 (counterexample): after one successfully captured frame, an
iteration in which the capture read returns empty and the post-seek retry is
*still* empty does NOT skip: the loop check is `frame.empty()` on the
persistent buffer, which still holds the previous frame, so the stale frame
is re-rendered and displayed.  Concretely, `camC4` answers one good frame
and then only empties: the second tick consumes the two empty responses
(first conjunct), performs the single retry seek (second conjunct), and
nevertheless renders and displays (third conjunct). -/
theorem terminal_tick_stale_frame_rendered :
    ((terminal_tick none camC4 sessC4).1.reads.map Mat.empty) = [true, true] ∧
    (terminal_tick none (terminal_tick none camC4 sessC4).1
        (terminal_tick none camC4 sessC4).2.1).1.seeks = 1 ∧
    (terminal_tick none (terminal_tick none camC4 sessC4).1
        (terminal_tick none camC4 sessC4).2.1).2.2 = true := by
  decide

/-- Claim C4 (amended): when a capture read returns an empty frame,
`get_frame_data` seeks back to the first frame exactly once and retries
exactly once (it consumes exactly two device responses and bumps the seek
count by one); if the retried read is still empty, the frame buffer is left
unchanged, and the session-loop iteration is skipped (no render, no display)
provided the persistent buffer is still empty — in particular always before
any frame has been captured.  No crash occurs (`Ok(())` is returned). -/
theorem get_frame_data_retry_and_skip (rest : List Mat) (n : ℕ) (frame : Mat)
    (fl : Bool) (k : Option Key) (s : Sess)
    (hq : (apply_key k s).quit = false) (he : s.frame.empty = true) :
    get_frame_data ⟨Mat.mdefault :: Mat.mdefault :: rest, n⟩ frame fl =
      (⟨rest, n + 1⟩, frame) ∧
    (terminal_tick k ⟨Mat.mdefault :: Mat.mdefault :: rest, n⟩ s).2.2 = false ∧
    (terminal_tick k ⟨Mat.mdefault :: Mat.mdefault :: rest, n⟩ s).1.seeks =
      n + 1 := by
  have hgf : ∀ (fr : Mat) (fl2 : Bool),
      get_frame_data ⟨Mat.mdefault :: Mat.mdefault :: rest, n⟩ fr fl2 =
        (⟨rest, n + 1⟩, fr) := by
    intro fr fl2
    simp [get_frame_data, cam_read, cam_seek_start, Mat.empty_mdefault]
  refine ⟨hgf frame fl, ?_⟩
  unfold terminal_tick
  simp only [hq, Bool.false_eq_true, if_false, apply_key_frame, apply_key_flip,
    hgf, he, if_true]
  exact ⟨trivial, trivial⟩

/-- Witness for the amended C4: a fresh session, device answering two
empties. -/
theorem get_frame_data_retry_and_skip_witness :
    get_frame_data ⟨[Mat.mdefault, Mat.mdefault], 0⟩ Mat.mdefault false =
      (⟨[], 1⟩, Mat.mdefault) ∧
    (terminal_tick none ⟨[Mat.mdefault, Mat.mdefault], 0⟩ sessC4).2.2 = false ∧
    (terminal_tick none ⟨[Mat.mdefault, Mat.mdefault], 0⟩ sessC4).1.seeks = 1 :=
  get_frame_data_retry_and_skip [] 0 Mat.mdefault false none sessC4 rfl rfl

/-- Claim C10 (counterexample): an iteration whose captured frame is empty
does not necessarily leave the session state unchanged: key events are
handled *before* the frame check, so a pending `m` key still cycles the
mode even though nothing is rendered that tick. -/
theorem terminal_tick_key_event_changes_mode :
    ((terminal_tick (some Key.m) ⟨[], 0⟩ sessC10).2.1.frame).empty = true ∧
    (terminal_tick (some Key.m) ⟨[], 0⟩ sessC10).2.2 = false ∧
    (terminal_tick (some Key.m) ⟨[], 0⟩ sessC10).2.1.mode ≠ sessC10.mode := by
  decide

/-- Claim C10 (amended): an iteration of the terminal loop that ends with an
empty frame buffer renders nothing and displays nothing, and leaves the
frame counter, the flip flag and the frame buffer unchanged; if additionally
no key event was consumed that tick, the entire session state is unchanged.
(The frame counter advances only on ticks that actually rendered.) -/
theorem empty_frame_tick_preserves_state (k : Option Key) (cam : CamState)
    (s : Sess) (he : ((terminal_tick k cam s).2.1.frame).empty = true) :
    (terminal_tick k cam s).2.2 = false ∧
    (terminal_tick k cam s).2.1.frame_count = s.frame_count ∧
    (terminal_tick k cam s).2.1.flip = s.flip ∧
    (terminal_tick k cam s).2.1.frame = s.frame ∧
    (k = none → (terminal_tick k cam s).2.1 = s) := by
  by_cases hq : (apply_key k s).quit = true
  · have heq : terminal_tick k cam s = (cam, apply_key k s, false) := by
      unfold terminal_tick
      rw [if_pos hq]
    rw [heq] at he ⊢
    refine ⟨rfl, apply_key_frame_count k s, apply_key_flip k s,
      apply_key_frame k s, ?_⟩
    rintro rfl
    rfl
  · by_cases hre :
        ((get_frame_data cam (apply_key k s).frame (apply_key k s).flip).2).empty = true
    · have heq : terminal_tick k cam s =
          ((get_frame_data cam (apply_key k s).frame (apply_key k s).flip).1,
           { apply_key k s with
               frame := (get_frame_data cam (apply_key k s).frame
                 (apply_key k s).flip).2 }, false) := by
        unfold terminal_tick
        rw [if_neg hq, if_pos hre]
      rw [heq] at he ⊢
      have hfr := get_frame_data_empty_frame cam (apply_key k s).frame
        (apply_key k s).flip hre
      refine ⟨rfl, apply_key_frame_count k s, apply_key_flip k s,
        hfr.trans (apply_key_frame k s), ?_⟩
      rintro rfl
      have hid : apply_key none s = s := rfl
      rw [hid] at hfr ⊢
      rw [hfr]
    · have heq : terminal_tick k cam s =
          ((get_frame_data cam (apply_key k s).frame (apply_key k s).flip).1,
           { apply_key k s with
               frame := (get_frame_data cam (apply_key k s).frame
                 (apply_key k s).flip).2,
               frame_count := ((apply_key k s).frame_count + 1) % 2 ^ 64 },
           true) := by
        unfold terminal_tick
        rw [if_neg hq, if_neg hre]
      rw [heq] at he
      exact absurd he hre

/-- Witness for the amended C10: a fresh session, no key, device empty. -/
theorem empty_frame_tick_preserves_state_witness :
    (terminal_tick none ⟨[], 0⟩ sessC10).2.2 = false ∧
    (terminal_tick none ⟨[], 0⟩ sessC10).2.1.frame_count = sessC10.frame_count ∧
    (terminal_tick none ⟨[], 0⟩ sessC10).2.1.flip = sessC10.flip ∧
    (terminal_tick none ⟨[], 0⟩ sessC10).2.1.frame = sessC10.frame ∧
    (none = (none : Option Key) → (terminal_tick none ⟨[], 0⟩ sessC10).2.1 = sessC10) :=
  empty_frame_tick_preserves_state none ⟨[], 0⟩ sessC10 (by decide)
